import Mathlib

/-!
Shallow embedding of `src/atcoder.rs` (the AtCoder HTML-as-protocol layer of
cargo-atcoder): the test-case extractor, the metadata extractor, the login
classifier and the submission orchestrator, modelled as pure functions over
views of the parsed HTML documents.

Conventions of the embedding:
* Rust strings are modelled as `List Char` (`Chars`), with the string
  primitives the source uses (`trim`, `starts_with`, `to_lowercase`,
  `split_whitespace().next()`) given as structurally recursive functions so
  that every definition evaluates inside the kernel.  Whitespace and
  lowercasing follow `Char.isWhitespace`/`Char.toLower`; the source only
  applies them to ASCII identifiers and labels, where they agree with Rust.
* A Rust `unwrap()`-of-`None` panic (an abort, not a reportable error) is
  modelled as `Option.none` in the result type.
* A reportable `anyhow::Error` is modelled as `Except.error` carrying the
  error's message.
-/

set_option autoImplicit false

namespace AtCoder

/-- Character-list representation of a Rust string. -/
abbrev Chars := List Char

/-- The characters of a string literal, used to write `Chars` constants. -/
def chars (s : String) : Chars := s.data

/-- Decidable equality on `Except`, so that concrete runs of the embedded
functions can be checked by `decide`. -/
instance {ε α : Type} [DecidableEq ε] [DecidableEq α] : DecidableEq (Except ε α) := fun a b =>
  match a, b with
  | .error e, .error f => decidable_of_iff (e = f) (by simp)
  | .error _, .ok _ => isFalse (by simp)
  | .ok _, .error _ => isFalse (by simp)
  | .ok x, .ok y => decidable_of_iff (x = y) (by simp)

/-- Model of Rust `str::trim`: drop leading and trailing whitespace. -/
def trimChars (s : Chars) : Chars :=
  ((s.dropWhile Char.isWhitespace).reverse.dropWhile Char.isWhitespace).reverse

/-- Model of Rust `str::starts_with`: the pattern is a prefix of the string. -/
def startsWithChars (s pat : Chars) : Bool :=
  pat.isPrefixOf s

/-- Model of Rust `str::to_lowercase`, characterwise. -/
def toLowerChars (s : Chars) : Chars :=
  s.map Char.toLower

/-- Model of Rust `str::split_whitespace().next()`: the first
whitespace-delimited token, or `none` when the string is empty or all
whitespace. -/
def firstToken? (s : Chars) : Option Chars :=
  match s.dropWhile Char.isWhitespace with
  | [] => none
  | c :: rest => some ((c :: rest).takeWhile (fun d => !d.isWhitespace))

/-- Decimal digits of a natural number, used for the diagnostic message. -/
def natChars (n : Nat) : Chars := (toString n).data

/-- A sample input/output pair, as in `struct TestCase` of the source. -/
structure TestCase where
  input : Chars
  output : Chars
deriving Repr, DecidableEq

/-- View of one `h3` occurrence in a problem page, as traversed by
`test_cases`: `label` is the `inner_html` of the *first* `h3` in the `h3`'s
parent block, and `pres` lists, in document order, the `pre` elements of that
parent block, each given by its list of text nodes. -/
structure SampleBlock where
  label : Chars
  pres : List (List Chars)
deriving Repr, DecidableEq

/-- The closure `f` of `test_cases`:
`p.select(pre).next().unwrap().text().exactly_one().map(trim).unwrap_or_default()`.
No `pre` element means an `unwrap` of `None` (abort, modelled `none`); the
first `pre` yields its sole text node trimmed, or the empty string when it
has zero or more than one text node. -/
def extractPreText (pres : List (List Chars)) : Option Chars :=
  match pres with
  | [] => none
  | texts :: _ =>
    match texts with
    | [s] => some (trimChars s)
    | _ => some []

/-- One loop iteration's contribution: the four candidate lists a block pushes
onto (Japanese inputs, Japanese outputs, English inputs, English outputs),
following the four independent prefix tests of the source loop. -/
def sampleContribution (b : SampleBlock) :
    Option (List Chars × List Chars × List Chars × List Chars) := do
  let label := trimChars b.label
  let ji ← if startsWithChars label (chars "入力例") then
    (extractPreText b.pres).map ([·]) else some []
  let jo ← if startsWithChars label (chars "出力例") then
    (extractPreText b.pres).map ([·]) else some []
  let ei ← if startsWithChars label (chars "Sample Input") then
    (extractPreText b.pres).map ([·]) else some []
  let eo ← if startsWithChars label (chars "Sample Output") then
    (extractPreText b.pres).map ([·]) else some []
  some (ji, jo, ei, eo)

/-- The accumulation loop of `test_cases` over all `h3` occurrences, building
`inputs_ja`, `outputs_ja`, `inputs_en`, `outputs_en` in document order. -/
def collectSamples : List SampleBlock →
    Option (List Chars × List Chars × List Chars × List Chars)
  | [] => some ([], [], [], [])
  | b :: rest => do
    let (ji₀, jo₀, ei₀, eo₀) ← sampleContribution b
    let (ji, jo, ei, eo) ← collectSamples rest
    some (ji₀ ++ ji, jo₀ ++ jo, ei₀ ++ ei, eo₀ ++ eo)

/-- The diagnostic message of `test_cases` when neither language variant is
usable, reporting all four observed counts. -/
def scrapeFailureMessage (ji jo ei eo : Nat) : Chars :=
  chars "Could not scrape sample test cases (JA inputs: " ++ natChars ji ++
  chars ", JA outputs: " ++ natChars jo ++ chars ", EN inputs: " ++ natChars ei ++
  chars ", EN outputs: " ++ natChars eo ++ chars ")"

/-- Function `AtCoder::test_cases`, after the page fetch: collect the four
candidate lists, prefer the Japanese pair when non-empty and balanced, else
the English pair under the same condition, else fail with the four-count
diagnostic; on success pair the chosen lists positionally. -/
def test_cases (blocks : List SampleBlock) : Option (Except Chars (List TestCase)) := do
  let (ji, jo, ei, eo) ← collectSamples blocks
  if !ji.isEmpty && ji.length == jo.length then
    some (Except.ok ((ji.zip jo).map fun p => ⟨p.1, p.2⟩))
  else if !ei.isEmpty && ei.length == eo.length then
    some (Except.ok ((ei.zip eo).map fun p => ⟨p.1, p.2⟩))
  else
    some (Except.error (scrapeFailureMessage ji.length jo.length ei.length eo.length))

/-- A problem record of the contest task table, as `struct Problem`.  The
source keeps `name`, `tle` and `mle` under underscore-prefixed field names;
here they are embedded without the underscore. -/
structure Problem where
  id : Chars
  name : Chars
  url : Chars
  tle : Chars
  mle : Chars
deriving Repr, DecidableEq

/-- The ordered problem list of a contest, as `struct ContestInfo`. -/
structure ContestInfo where
  problems : List Problem
deriving Repr, DecidableEq

/-- Method `ContestInfo::problem`: first problem whose lowercased id equals
the lowercased query id. -/
def ContestInfo.problem (c : ContestInfo) (id : Chars) : Option Problem :=
  c.problems.find? (fun p => toLowerChars p.id == toLowerChars id)

/-- An anchor (`a`) element inside a task-table cell: its `inner_html` and
its optional `href` attribute. -/
structure Anchor where
  html : Chars
  href : Option Chars
deriving Repr, DecidableEq

/-- A task-table cell (`td`): its anchor descendants in document order and
its own `inner_html`. -/
structure Cell where
  anchors : List Anchor
  html : Chars
deriving Repr, DecidableEq

/-- The per-row body of `contest_info`'s loop: four `it.next().unwrap()`
calls (fewer than four cells aborts, extra cells are ignored), an unwrapped
first anchor in each of the first two cells, an unwrapped `href` on the
second, and trimming of every extracted string. -/
def parseRow (cells : List Cell) : Option Problem :=
  match cells with
  | c1 :: c2 :: c3 :: c4 :: _ => do
    let a1 ← c1.anchors.head?
    let a2 ← c2.anchors.head?
    let url ← a2.href
    some ⟨trimChars a1.html, trimChars a2.html, trimChars url,
      trimChars c3.html, trimChars c4.html⟩
  | _ => none

/-- Outcome of a `http_get` through the transport client: a parsed page
view, or an error that either is an HTTP 404 status error (`is404 = true`)
or any other failure, carrying its message. -/
inductive FetchOutcome (α : Type) where
  | ok (page : α)
  | err (is404 : Bool) (msg : Chars)
deriving Repr, DecidableEq

/-- Function `AtCoder::retrieve_text_or_error_message`: a 404 is
disambiguated through `username()` (the session oracle) — logged in yields
the caller-supplied context message, logged out yields the fixed
not-logged-in message, and a failing oracle propagates its own error; any
non-404 failure propagates unchanged. -/
def retrieve_text_or_error_message {α : Type} (f : FetchOutcome α)
    (uname : Except Chars (Option Chars)) (contextOnLoggedIn : Chars) :
    Except Chars α :=
  match f with
  | .ok p => .ok p
  | .err true _ =>
    match uname with
    | .ok (some _) => .error contextOnLoggedIn
    | .ok none => .error (chars "You are not logged in. Please login first")
    | .error e => .error e
  | .err false msg => .error msg

/-- Function `AtCoder::contest_info`, after HTML parsing: the tasks page is
viewed as its list of table body rows (each a list of cells).  The fetch
goes through `retrieve_text_or_error_message` with the not-participating
context message; each row is then parsed by the unwrap-based `parseRow`, so
a malformed row aborts the whole call (`none`) rather than producing an
`Except.error`. -/
def contest_info (contest_id : Chars) (f : FetchOutcome (List (List Cell)))
    (uname : Except Chars (Option Chars)) : Option (Except Chars ContestInfo) :=
  match retrieve_text_or_error_message f uname
      (chars "You are not participating in `" ++ contest_id ++
        chars "`, or it does not yet exist") with
  | .error e => some (.error e)
  | .ok rows => (rows.mapM parseRow).map (fun ps => Except.ok ⟨ps⟩)

/-- View of a page's first `input[name="csrf_token"]` query result: `none`
when no such input exists, `some v?` when one exists with `v?` its optional
`value` attribute. -/
def CsrfView : Type := Option (Option Chars)

/-- The csrf-token extraction of `login`: both the absent input and the
absent `value` attribute are reportable errors (`with_context`), not
aborts. -/
def login_csrf_token (c : CsrfView) : Except Chars Chars :=
  match c with
  | some (some v) => .ok v
  | some none => .error (chars "cannot find csrf_token")
  | none => .error (chars "cannot find csrf_token")

/-- View of the post-submit login response: `errorBanner` is the result of
the `div.alert-danger` query, carrying (when the banner is present) the
banner's last child rendered as a text node — `none` inside when the banner
has no children or its last child is not text (each an `unwrap` abort in the
source); `successBanner` records whether a `div.alert-success` is
present. -/
structure LoginResponse where
  errorBanner : Option (Option Chars)
  successBanner : Bool
deriving Repr, DecidableEq

/-- The response classification of `login`: the error banner is checked
first and wins with message `Login failed:` followed by the banner's trimmed
trailing text; otherwise a success banner means success; otherwise the fixed
unknown-error message. -/
def login_classify (r : LoginResponse) : Option (Except Chars Unit) :=
  match r.errorBanner with
  | some (some t) => some (.error (chars "Login failed: " ++ trimChars t))
  | some none => none
  | none =>
    if r.successBanner then some (.ok ())
    else some (.error (chars "Login failed: Unknown error"))

/-- Function `AtCoder::login`, after the two fetches: extract the csrf token
from the login page (reportable error when absent), then classify the post
response. -/
def login (page : CsrfView) (resp : LoginResponse) : Option (Except Chars Unit) :=
  match login_csrf_token page with
  | .error e => some (.error e)
  | .ok _ => login_classify resp

/-- View of one table inside the contest-statement panel, as queried by
`problem_ids_from_score_table`: the flat-mapped text nodes of its
`thead > tr > th` elements, and for each `tbody > tr` row the list of its
cells, each cell given by its list of text nodes. -/
structure ScoreTable where
  headerTexts : List Chars
  rows : List (List (List Chars))
deriving Repr, DecidableEq

/-- The header filter of `problem_ids_from_score_table`. -/
def scoreHeaderMatches (t : ScoreTable) : Bool :=
  t.headerTexts == [chars "Task", chars "Score"] ||
  t.headerTexts == [chars "問題", chars "点数"]

/-- Model of `itertools::exactly_one().ok()`: `some` exactly when the list
is a singleton. -/
def exactlyOne? {α : Type} (l : List α) : Option α :=
  match l with
  | [x] => some x
  | _ => none

/-- The flat-mapped text nodes of one score-table body row
(`tr.select(td).flat_map(text)`). -/
def scoreRowTexts (cells : List (List Chars)) : List Chars :=
  cells.flatMap id

/-- The per-row parse of `problem_ids_from_score_table`: exactly two text
nodes across the row's cells yield the first as the problem id; anything
else is the fixed parse error. -/
def parseScoreRow (cells : List (List Chars)) : Except Chars Chars :=
  match scoreRowTexts cells with
  | [a, _] => .ok a
  | _ => .error (chars "could not parse the table")

/-- Function `AtCoder::problem_ids_from_score_table`, after the page fetch:
keep the tables whose header matches, demand exactly one (`none` otherwise,
not an error), and parse each of its body rows. -/
def problem_ids_from_score_table (tables : List ScoreTable) :
    Except Chars (Option (List Chars)) :=
  match exactlyOne? (tables.filter scoreHeaderMatches) with
  | none => .ok none
  | some t => (t.rows.mapM parseScoreRow).map some

/-- A `select` option of the submission page: its `inner_html` label and its
optional `value` attribute. -/
structure SelOption where
  label : Chars
  value : Option Chars
deriving Repr, DecidableEq

/-- View of the submission page: the task-selector options, the
language-selector options scoped to a given task screen name (the
`div[id="select-lang-…"]` query), and the csrf-token input view. -/
structure SubmitPage where
  taskOptions : List SelOption
  langOptions : Chars → List SelOption
  csrf : CsrfView

/-- The POST form body `submit` sends on success. -/
structure SubmitForm where
  taskScreenName : Chars
  languageId : Chars
  sourceCode : Chars
  csrfToken : Chars
deriving Repr, DecidableEq

/-- Task resolution in `submit`: scan the options in order; the first token
of every examined label is unwrapped (an all-whitespace label aborts), a
match is an option whose lowercased first token starts with the lowercased
problem id, and the matching option's `value` attribute is unwrapped; no
match is the ProblemNotFound error naming the problem id. -/
def resolveTask (problem_id : Chars) : List SelOption → Option (Except Chars Chars)
  | [] => some (.error (chars "Problem not found: " ++ problem_id))
  | o :: rest =>
    match firstToken? o.label with
    | none => none
    | some tok =>
      if startsWithChars (toLowerChars tok) (toLowerChars problem_id) then
        match o.value with
        | none => none
        | some v => some (.ok v)
      else resolveTask problem_id rest

/-- Language resolution in `submit`: like the task scan, but a missing first
token defaults to the empty string (`unwrap_or`), the target is the fixed
prefix `rust`, and a match returns the option's unwrapped `value` with its
label; no match is the LanguageUnavailable error naming the problem id. -/
def resolveLang (problem_id : Chars) : List SelOption → Option (Except Chars (Chars × Chars))
  | [] => some (.error (chars "Rust seems to be not available in problem " ++
      problem_id ++ chars "..."))
  | o :: rest =>
    if startsWithChars (toLowerChars ((firstToken? o.label).getD [])) (chars "rust") then
      match o.value with
      | none => none
      | some v => some (.ok (v, o.label))
    else resolveLang problem_id rest

/-- Function `AtCoder::submit`, after login check and page fetch: resolve
the task, then the language scoped to the resolved screen name, then unwrap
the csrf token (absence or a missing `value` attribute aborts), and only
then build the POST form; an `Except.error` result means the form POST never
happens. -/
def submit (problem_id source_code : Chars) (page : SubmitPage) :
    Option (Except Chars SubmitForm) := do
  match ← resolveTask problem_id page.taskOptions with
  | .error e => some (.error e)
  | .ok tsn =>
    match ← resolveLang problem_id (page.langOptions tsn) with
    | .error e => some (.error e)
    | .ok (lid, _) =>
      match page.csrf with
      | some (some tok) => some (.ok ⟨tsn, lid, source_code, tok⟩)
      | _ => none

/-! Helper lemmas shared by the claim theorems. -/

theorem mapM_option_none_of_mid {α β : Type} (f : α → Option β) (x : α)
    (pre post : List α) (h : f x = none) : (pre ++ x :: post).mapM f = none := by
  induction pre with
  | nil =>
    rw [List.nil_append, List.mapM_cons, h]
    rfl
  | cons y ys ih =>
    rw [List.cons_append, List.mapM_cons, ih]
    cases f y <;> rfl

theorem parseRow_none_of_short (cells : List Cell) (h : cells.length < 4) :
    parseRow cells = none := by
  rcases cells with _ | ⟨a, _ | ⟨b, _ | ⟨c, _ | ⟨d, t⟩⟩⟩⟩
  · rfl
  · rfl
  · rfl
  · rfl
  · simp [List.length] at h
    omega

theorem exactlyOne?_of_eq {α : Type} (l : List α) (x : α) (h : l = [x]) :
    exactlyOne? l = some x := by
  rw [h]
  rfl

theorem exactlyOne?_of_length_ne {α : Type} (l : List α) (h : l.length ≠ 1) :
    exactlyOne? l = none := by
  rcases l with _ | ⟨a, _ | ⟨b, t⟩⟩
  · rfl
  · exact absurd rfl h
  · rfl

theorem parseScoreRow_eq_ok (cells : List (List Chars))
    (h : (scoreRowTexts cells).length = 2) :
    parseScoreRow cells = Except.ok ((scoreRowTexts cells).headD []) := by
  unfold parseScoreRow
  rcases hl : scoreRowTexts cells with _ | ⟨a, _ | ⟨b, _ | ⟨c, t⟩⟩⟩
  · rw [hl] at h; simp at h
  · rw [hl] at h; simp at h
  · rfl
  · rw [hl] at h; simp at h

theorem parseScoreRow_eq_error (cells : List (List Chars))
    (h : (scoreRowTexts cells).length ≠ 2) :
    parseScoreRow cells = Except.error (chars "could not parse the table") := by
  unfold parseScoreRow
  rcases hl : scoreRowTexts cells with _ | ⟨a, _ | ⟨b, _ | ⟨c, t⟩⟩⟩
  · rfl
  · rfl
  · rw [hl] at h; simp at h
  · rfl

theorem mapM_parseScoreRow_ok (rows : List (List (List Chars)))
    (h : ∀ r ∈ rows, (scoreRowTexts r).length = 2) :
    rows.mapM parseScoreRow =
      Except.ok (rows.map fun r => (scoreRowTexts r).headD []) := by
  induction rows with
  | nil => rfl
  | cons y ys ih =>
    rw [List.mapM_cons, parseScoreRow_eq_ok y (h y (by simp)),
      ih (fun r hr => h r (by simp [hr]))]
    rfl

theorem mapM_parseScoreRow_error (rows : List (List (List Chars)))
    (h : ∃ r ∈ rows, (scoreRowTexts r).length ≠ 2) :
    rows.mapM parseScoreRow = Except.error (chars "could not parse the table") := by
  induction rows with
  | nil => simp at h
  | cons y ys ih =>
    by_cases hy : (scoreRowTexts y).length = 2
    · have hys : ∃ r ∈ ys, (scoreRowTexts r).length ≠ 2 := by
        rcases h with ⟨r, hr, hne⟩
        rcases List.mem_cons.mp hr with hr | hr
        · exact absurd (hr ▸ hy) hne
        · exact ⟨r, hr, hne⟩
      rw [List.mapM_cons, parseScoreRow_eq_ok y hy, ih hys]
      rfl
    · rw [List.mapM_cons, parseScoreRow_eq_error y hy]
      rfl

/-! Claim theorems. -/

/-- Claim C1: when the Japanese input list is non-empty and the Japanese
input and output counts agree, `test_cases` returns the positionally paired
Japanese samples; failing that it does the same for the English lists;
failing both it fails with the diagnostic reporting all four observed
counts.  On success the result's length equals the chosen variant's input
count and entry `i` pairs the variant's `inputs[i]` with its `outputs[i]`,
so the two language variants are never mixed. -/
theorem test_cases_selects (blocks : List SampleBlock) (ji jo ei eo : List Chars)
    (hc : collectSamples blocks = some (ji, jo, ei, eo)) :
    (¬ ji = [] → ji.length = jo.length →
      ∃ r : List TestCase, test_cases blocks = some (Except.ok r) ∧
        r.length = ji.length ∧
        ∀ (i : Nat) (a b : Chars), ji[i]? = some a → jo[i]? = some b →
          r[i]? = some (TestCase.mk a b)) ∧
    ((ji = [] ∨ ¬ ji.length = jo.length) → ¬ ei = [] → ei.length = eo.length →
      ∃ r : List TestCase, test_cases blocks = some (Except.ok r) ∧
        r.length = ei.length ∧
        ∀ (i : Nat) (a b : Chars), ei[i]? = some a → eo[i]? = some b →
          r[i]? = some (TestCase.mk a b)) ∧
    ((ji = [] ∨ ¬ ji.length = jo.length) → (ei = [] ∨ ¬ ei.length = eo.length) →
      test_cases blocks = some (Except.error
        (scrapeFailureMessage ji.length jo.length ei.length eo.length))) := by
  refine ⟨?_, ?_, ?_⟩
  · intro h1 h2
    refine ⟨(ji.zip jo).map fun p => ⟨p.1, p.2⟩, ?_, ?_, ?_⟩
    · simp [test_cases, hc, h1, h2]
    · rw [List.length_map, List.length_zip, h2, Nat.min_self]
    · intro i a b ha hb
      rw [List.getElem?_map, (@List.getElem?_zip_eq_some _ _ ji jo (a, b) i).mpr ⟨ha, hb⟩]
      rfl
  · intro hja h1 h2
    refine ⟨(ei.zip eo).map fun p => ⟨p.1, p.2⟩, ?_, ?_, ?_⟩
    · rcases hja with h | h <;> simp [test_cases, hc, h, h1, h2]
    · rw [List.length_map, List.length_zip, h2, Nat.min_self]
    · intro i a b ha hb
      rw [List.getElem?_map, (@List.getElem?_zip_eq_some _ _ ei eo (a, b) i).mpr ⟨ha, hb⟩]
      rfl
  · intro hja hen
    rcases hja with h | h <;> rcases hen with h' | h' <;>
      simp [test_cases, hc, h, h']

/-- Witness for C1: a page with one Japanese sample pair. -/
theorem test_cases_selects_witness :
    ∃ r : List TestCase,
      test_cases [⟨chars "入力例 1", [[chars "1 2"]]⟩, ⟨chars "出力例 1", [[chars "3"]]⟩] =
        some (Except.ok r) ∧ r.length = [chars "1 2"].length ∧
      ∀ (i : Nat) (a b : Chars), [chars "1 2"][i]? = some a →
        [chars "3"][i]? = some b → r[i]? = some (TestCase.mk a b) :=
  (test_cases_selects [⟨chars "入力例 1", [[chars "1 2"]]⟩, ⟨chars "出力例 1", [[chars "3"]]⟩]
    [chars "1 2"] [chars "3"] [] [] (by decide)).1 (by decide) rfl

/-- Counterexample to claim C2: for a labelled block with two `pre` elements
whose first holds the single text node `a`, the extracted input is `a`, not
the empty string (the first `pre` wins, the duplicate is ignored); and for a
labelled block with zero `pre` elements the call aborts (`unwrap` of `None`)
instead of defaulting to empty text. -/
theorem test_cases_pre_counterexample :
    test_cases [⟨chars "入力例 1", [[chars "a"], [chars "b"]]⟩,
        ⟨chars "出力例 1", [[chars "o"]]⟩] =
      some (Except.ok [⟨chars "a", chars "o"⟩]) ∧
    chars "a" ≠ ([] : Chars) ∧
    test_cases [⟨chars "入力例 1", []⟩, ⟨chars "出力例 1", [[chars "o"]]⟩] = none := by
  refine ⟨by decide, by decide, by decide⟩

/-- Amended C2: for a sample block whose label matches a marker, the
defensive empty-text default applies to the text nodes of the *first* `pre`
element of the block — the text is empty exactly when that `pre` does not
hold exactly one text node, additional `pre` elements being ignored — while
a matching block with zero `pre` elements makes the call abort rather than
yield empty text. -/
theorem sample_pre_text_amended (texts : List Chars) (rest : List (List Chars))
    (h : texts.length ≠ 1) :
    collectSamples [⟨chars "入力例 1", texts :: rest⟩] = some ([[]], [], [], []) ∧
    (∀ s : Chars, texts = [s] →
      collectSamples [⟨chars "入力例 1", [s] :: rest⟩] =
        some ([trimChars s], [], [], [])) ∧
    collectSamples [⟨chars "入力例 1", []⟩] = none := by
  refine ⟨?_, ?_, by decide⟩
  · rcases texts with _ | ⟨a, _ | ⟨b, t⟩⟩
    · rfl
    · exact absurd rfl h
    · rfl
  · intro s hs
    rfl

/-- Witness for the amended C2: a first `pre` with two text nodes yields the
empty input. -/
theorem sample_pre_text_amended_witness :
    collectSamples [⟨chars "入力例 1", [chars "a", chars "b"] :: []⟩] =
      some ([[]], [], [], []) :=
  (sample_pre_text_amended [chars "a", chars "b"] [] (by decide)).1

/-- Counterexample to claim C3: a table body row with five cells does not
make `contest_info` fail — it is parsed from its first four cells — and a
row with three cells makes the call abort (`unwrap` of `None`), not return a
structural parse error. -/
theorem contest_info_row_counterexample :
    contest_info (chars "c")
      (.ok [[⟨[⟨chars "A", some (chars "/t/a")⟩], chars "c1"⟩,
             ⟨[⟨chars "Name", some (chars "/c/p")⟩], chars "c2"⟩,
             ⟨[], chars "2 sec"⟩, ⟨[], chars "1024 MB"⟩, ⟨[], chars "extra"⟩]])
      (.ok none) =
      some (Except.ok ⟨[⟨chars "A", chars "Name", chars "/c/p",
        chars "2 sec", chars "1024 MB"⟩]⟩) ∧
    contest_info (chars "c")
      (.ok [[⟨[], chars "x"⟩, ⟨[], chars "y"⟩, ⟨[], chars "z"⟩]])
      (.ok none) = none := by
  refine ⟨by decide, by decide⟩

/-- Amended C3: rows with at least four cells are parsed from their first
four fixed-position cells (extras ignored); a row with fewer than four cells
makes `contest_info` abort (`unwrap` panic) wherever it occurs, and on a
successfully fetched tasks page `contest_info` never returns a structured
error — malformed rows abort instead. -/
theorem contest_info_rows_amended (cid : Chars) (u : Except Chars (Option Chars))
    (pre post rows : List (List Cell)) (cells : List Cell)
    (h : cells.length < 4) :
    contest_info cid (.ok (pre ++ cells :: post)) u = none ∧
    (∀ e : Chars, contest_info cid (.ok rows) u ≠ some (Except.error e)) ∧
    (∀ c1 c2 c3 c4 : Cell, ∀ extra : List Cell,
      parseRow (c1 :: c2 :: c3 :: c4 :: extra) = parseRow [c1, c2, c3, c4]) := by
  refine ⟨?_, ?_, ?_⟩
  · show ((pre ++ cells :: post).mapM parseRow).map
      (fun ps => (Except.ok ⟨ps⟩ : Except Chars ContestInfo)) = none
    rw [mapM_option_none_of_mid parseRow cells pre post (parseRow_none_of_short cells h)]
    rfl
  · intro e hcontra
    have : (rows.mapM parseRow).map
        (fun ps => (Except.ok ⟨ps⟩ : Except Chars ContestInfo)) =
        some (Except.error e) := hcontra
    cases hm : rows.mapM parseRow <;> rw [hm] at this <;> simp at this
  · intro c1 c2 c3 c4 extra
    rfl

/-- Witness for the amended C3: a one-row page whose row has no cells. -/
theorem contest_info_rows_amended_witness :
    contest_info (chars "x") (.ok ([] ++ ([] : List Cell) :: [])) (.ok none) = none ∧
    (∀ e : Chars, contest_info (chars "x") (.ok ([] : List (List Cell)))
      (.ok none) ≠ some (Except.error e)) ∧
    (∀ c1 c2 c3 c4 : Cell, ∀ extra : List Cell,
      parseRow (c1 :: c2 :: c3 :: c4 :: extra) = parseRow [c1, c2, c3, c4]) :=
  contest_info_rows_amended (chars "x") (.ok none) [] [] [] [] (by decide)

/-- Counterexample to claim C4: for a response carrying the error banner
with trailing text `wrong password` (and even a success banner as well),
`login_classify` fails with message `Login failed: wrong password`, which is
not equal to the banner's trimmed trailing text — the message carries the
fixed `Login failed: ` prefix in front of it. -/
theorem login_banner_counterexample :
    login_classify ⟨some (some (chars "  wrong password  ")), true⟩ =
      some (Except.error (chars "Login failed: wrong password")) ∧
    chars "Login failed: wrong password" ≠ chars "wrong password" := by
  refine ⟨by decide, by decide⟩

/-- Amended C4: the post-submit response is classified in order — an error
banner wins first (whatever the success banner says) and the failure message
is `Login failed: ` followed by the banner's trimmed trailing text; with no
error banner, a success banner means success; with neither, the failure
message is `Login failed: Unknown error`. -/
theorem login_classify_amended (r : LoginResponse) :
    (∀ t : Chars, r.errorBanner = some (some t) →
      login_classify r = some (Except.error (chars "Login failed: " ++ trimChars t))) ∧
    (r.errorBanner = none → r.successBanner = true →
      login_classify r = some (Except.ok ())) ∧
    (r.errorBanner = none → r.successBanner = false →
      login_classify r = some (Except.error (chars "Login failed: Unknown error"))) := by
  refine ⟨?_, ?_, ?_⟩
  · intro t ht
    simp [login_classify, ht]
  · intro hb hs
    simp [login_classify, hb, hs]
  · intro hb hs
    simp [login_classify, hb, hs]

/-- Witness for the amended C4: the three classifications at concrete
responses. -/
theorem login_classify_amended_witness :
    login_classify ⟨some (some (chars " bad ")), true⟩ =
      some (Except.error (chars "Login failed: " ++ trimChars (chars " bad "))) ∧
    login_classify ⟨none, true⟩ = some (Except.ok ()) ∧
    login_classify ⟨none, false⟩ =
      some (Except.error (chars "Login failed: Unknown error")) :=
  ⟨(login_classify_amended ⟨some (some (chars " bad ")), true⟩).1 (chars " bad ") rfl,
   (login_classify_amended ⟨none, true⟩).2.1 rfl rfl,
   (login_classify_amended ⟨none, false⟩).2.2 rfl rfl⟩

/-- Counterexample to claim C5: a single matching table whose only body row
has exactly two cells, the first holding two text nodes, is rejected with
the parse error instead of yielding that row's id — the two-ness check is on
text nodes flat-mapped across the row's cells, not on the cell count. -/
theorem score_table_cells_counterexample :
    problem_ids_from_score_table
      [⟨[chars "Task", chars "Score"], [[[chars "a", chars "x"], [chars "100"]]]⟩] =
      Except.error (chars "could not parse the table") ∧
    ([[chars "a", chars "x"], [chars "100"]] : List (List Chars)).length = 2 := by
  refine ⟨by decide, by decide⟩

/-- Amended C5: zero or several header-matching tables yield `Ok None` (not
an error); with exactly one matching table, each body row must flat-map to
exactly two text nodes across its cells — the first text node is the id, in
row order — and any row whose flat-mapped text-node count differs from two
makes the call fail with the parse error. -/
theorem score_table_amended (tables : List ScoreTable) :
    ((tables.filter scoreHeaderMatches).length ≠ 1 →
      problem_ids_from_score_table tables = Except.ok none) ∧
    (∀ t : ScoreTable, tables.filter scoreHeaderMatches = [t] →
      ((∀ r ∈ t.rows, (scoreRowTexts r).length = 2) →
        problem_ids_from_score_table tables =
          Except.ok (some (t.rows.map fun r => (scoreRowTexts r).headD []))) ∧
      ((∃ r ∈ t.rows, (scoreRowTexts r).length ≠ 2) →
        problem_ids_from_score_table tables =
          Except.error (chars "could not parse the table"))) := by
  refine ⟨?_, ?_⟩
  · intro hn
    unfold problem_ids_from_score_table
    rw [exactlyOne?_of_length_ne _ hn]
  · intro t ht
    constructor
    · intro hall
      unfold problem_ids_from_score_table
      rw [exactlyOne?_of_eq _ t ht]
      show Except.map some (t.rows.mapM parseScoreRow) = _
      rw [mapM_parseScoreRow_ok t.rows hall]
      rfl
    · intro hbad
      unfold problem_ids_from_score_table
      rw [exactlyOne?_of_eq _ t ht]
      show Except.map some (t.rows.mapM parseScoreRow) = _
      rw [mapM_parseScoreRow_error t.rows hbad]
      rfl

/-- Witness for the amended C5: one matching table with one well-shaped row,
and a page with two matching tables. -/
theorem score_table_amended_witness :
    problem_ids_from_score_table
      [⟨[chars "Task", chars "Score"], [[[chars "a"], [chars "100"]]]⟩] =
      Except.ok (some [chars "a"]) ∧
    problem_ids_from_score_table
      [⟨[chars "Task", chars "Score"], []⟩, ⟨[chars "問題", chars "点数"], []⟩] =
      Except.ok none := by
  constructor
  · exact ((score_table_amended
      [⟨[chars "Task", chars "Score"], [[[chars "a"], [chars "100"]]]⟩]).2
      ⟨[chars "Task", chars "Score"], [[[chars "a"], [chars "100"]]]⟩ (by decide)).1
      (by decide)
  · exact (score_table_amended
      [⟨[chars "Task", chars "Score"], []⟩, ⟨[chars "問題", chars "点数"], []⟩]).1
      (by decide)

theorem resolveTask_not_found (pid : Chars) (opts : List SelOption)
    (h : ∀ o ∈ opts, ∃ tok : Chars, firstToken? o.label = some tok ∧
      startsWithChars (toLowerChars tok) (toLowerChars pid) = false) :
    resolveTask pid opts = some (Except.error (chars "Problem not found: " ++ pid)) := by
  induction opts with
  | nil => rfl
  | cons o rest ih =>
    obtain ⟨tok, htok, hns⟩ := h o (by simp)
    rw [resolveTask, htok]
    simp only [hns, Bool.false_eq_true, if_false]
    exact ih (fun o' ho' => h o' (by simp [ho']))

theorem resolveTask_abort (pid : Chars) (pre post : List SelOption) (o : SelOption)
    (hpre : ∀ o' ∈ pre, ∃ tok : Chars, firstToken? o'.label = some tok ∧
      startsWithChars (toLowerChars tok) (toLowerChars pid) = false)
    (ho : firstToken? o.label = none) :
    resolveTask pid (pre ++ o :: post) = none := by
  induction pre with
  | nil =>
    rw [List.nil_append, resolveTask, ho]
  | cons o' rest ih =>
    obtain ⟨tok, htok, hns⟩ := hpre o' (by simp)
    rw [List.cons_append, resolveTask, htok]
    simp only [hns, Bool.false_eq_true, if_false]
    exact ih (fun o'' ho'' => hpre o'' (by simp [ho'']))

/-- Counterexample to claim C6: a submission page whose only task option has
an all-whitespace label satisfies the claim's premise (no option's first
label token starts with the problem id), yet `submit` aborts (`unwrap` of
`None` on the first token) instead of failing with the ProblemNotFound error
naming the id. -/
theorem submit_whitespace_counterexample :
    submit (chars "a") (chars "s")
      ⟨[⟨chars "   ", some (chars "v")⟩], fun _ => [], none⟩ = none ∧
    submit (chars "a") (chars "s")
      ⟨[⟨chars "   ", some (chars "v")⟩], fun _ => [], none⟩ ≠
      some (Except.error (chars "Problem not found: " ++ chars "a")) := by
  refine ⟨rfl, ?_⟩
  intro h
  rw [show submit (chars "a") (chars "s")
    ⟨[⟨chars "   ", some (chars "v")⟩], fun _ => [], none⟩ = none from rfl] at h
  cases h

/-- Amended C6: on a submission page each of whose task-option labels
contains a non-whitespace character (so each has a first token), if no
option's first token case-insensitively starts with the problem id then
`submit` fails with the ProblemNotFound error naming the id, and no POST
form is ever built; an all-whitespace option label instead makes `submit`
abort. -/
theorem submit_problem_not_found (pid src : Chars) (page : SubmitPage)
    (h : ∀ o ∈ page.taskOptions, ∃ tok : Chars, firstToken? o.label = some tok ∧
      startsWithChars (toLowerChars tok) (toLowerChars pid) = false) :
    submit pid src page = some (Except.error (chars "Problem not found: " ++ pid)) ∧
    ∀ f : SubmitForm, submit pid src page ≠ some (Except.ok f) := by
  have hres : submit pid src page =
      some (Except.error (chars "Problem not found: " ++ pid)) := by
    show (resolveTask pid page.taskOptions).bind _ =
      some (Except.error (chars "Problem not found: " ++ pid))
    rw [resolveTask_not_found pid page.taskOptions h]
    rfl
  refine ⟨hres, ?_⟩
  intro f hcontra
  rw [hres] at hcontra
  simp at hcontra

/-- Witness for the amended C6: a page whose single task option is labelled
`B - Title` and a queried problem id `a`. -/
theorem submit_problem_not_found_witness :
    submit (chars "a") (chars "src")
      ⟨[⟨chars "B - Title", some (chars "abc_b")⟩], fun _ => [],
        some (some (chars "tok"))⟩ =
      some (Except.error (chars "Problem not found: " ++ chars "a")) ∧
    ∀ f : SubmitForm, submit (chars "a") (chars "src")
      ⟨[⟨chars "B - Title", some (chars "abc_b")⟩], fun _ => [],
        some (some (chars "tok"))⟩ ≠ some (Except.ok f) :=
  submit_problem_not_found (chars "a") (chars "src")
    ⟨[⟨chars "B - Title", some (chars "abc_b")⟩], fun _ => [],
      some (some (chars "tok"))⟩
    (by
      intro o ho
      rw [List.mem_singleton] at ho
      subst ho
      exact ⟨chars "B", by decide, by decide⟩)

/-- Claim C7: a 404 on the tasks-page fetch is disambiguated through the
session oracle — a present username yields the not-participating-or-missing
message naming the contest, an absent username yields the not-logged-in
message — while a non-404 fetch failure propagates unchanged. -/
theorem contest_info_404_classification (cid m uname : Chars)
    (u : Except Chars (Option Chars)) (ctx : Chars) :
    contest_info cid (.err true m) (.ok (some uname)) =
      some (Except.error (chars "You are not participating in `" ++ cid ++
        chars "`, or it does not yet exist")) ∧
    contest_info cid (.err true m) (.ok none) =
      some (Except.error (chars "You are not logged in. Please login first")) ∧
    contest_info cid (.err false m) u = some (Except.error m) ∧
    retrieve_text_or_error_message
      (FetchOutcome.err true m : FetchOutcome (List (List Cell)))
      (.ok (some uname)) ctx = Except.error ctx :=
  ⟨rfl, rfl, rfl, rfl⟩

/-- Counterexample to claim C8: a submission page with resolvable task and
language but no csrf-token input makes `submit` abort (`unwrap` of `None`)
rather than fail with a reportable parse error, whereas `login`'s extraction
of the same missing input is the reportable `cannot find csrf_token`
error. -/
theorem submit_csrf_counterexample :
    submit (chars "a") (chars "code")
      ⟨[⟨chars "A - Title", some (chars "abc_a")⟩],
        fun _ => [⟨chars "Rust (1.70)", some (chars "5054")⟩], none⟩ = none ∧
    login_csrf_token none = Except.error (chars "cannot find csrf_token") := by
  refine ⟨rfl, rfl⟩

/-- Amended C8: the csrf token of `submit` is read from the same
`input[name="csrf_token"]` query as in `login`, but unlike `login` — where
an absent input or absent `value` attribute is the reportable
`cannot find csrf_token` error — `submit` unwraps both, so after successful
task and language resolution a page without the token (or without its
`value`) makes the call abort. -/
theorem submit_csrf_amended (pid src tsn lid lname : Chars) (page : SubmitPage)
    (ht : resolveTask pid page.taskOptions = some (Except.ok tsn))
    (hl : resolveLang pid (page.langOptions tsn) = some (Except.ok (lid, lname)))
    (hc : page.csrf = none ∨ page.csrf = some none) :
    submit pid src page = none ∧
    login_csrf_token page.csrf = Except.error (chars "cannot find csrf_token") := by
  constructor
  · show (resolveTask pid page.taskOptions).bind _ = none
    rw [ht]
    show (resolveLang pid (page.langOptions tsn)).bind _ = none
    rw [hl]
    show (match page.csrf with
      | some (some tok) => some (Except.ok (⟨tsn, lid, src, tok⟩ : SubmitForm))
      | _ => none) = none
    rcases hc with hc | hc <;> rw [hc]
  · rcases hc with hc | hc <;> rw [hc] <;> rfl

/-- Witness for the amended C8: a resolvable page whose csrf input lacks a
`value` attribute. -/
theorem submit_csrf_amended_witness :
    submit (chars "a") (chars "code")
      ⟨[⟨chars "A - Title", some (chars "abc_a")⟩],
        fun _ => [⟨chars "Rust (1.70)", some (chars "5054")⟩], some none⟩ = none ∧
    login_csrf_token (some none) =
      Except.error (chars "cannot find csrf_token") :=
  submit_csrf_amended (chars "a") (chars "code") (chars "abc_a") (chars "5054")
    (chars "Rust (1.70)")
    ⟨[⟨chars "A - Title", some (chars "abc_a")⟩],
      fun _ => [⟨chars "Rust (1.70)", some (chars "5054")⟩], some none⟩
    (by decide) (by decide) (Or.inr rfl)

/-- Claim C9: `ContestInfo::problem` looks problems up case-insensitively —
two query ids equal after lowercasing always give the same result. -/
theorem problem_case_insensitive (c : ContestInfo) (id1 id2 : Chars)
    (h : toLowerChars id1 = toLowerChars id2) :
    c.problem id1 = c.problem id2 := by
  unfold ContestInfo.problem
  rw [h]

/-- Witness for C9: in a contest holding a problem with id `B`, the lookups
for `b` and `B` coincide, and the record is found. -/
theorem problem_case_insensitive_witness :
    ContestInfo.problem
      ⟨[⟨chars "B", chars "Name", chars "/url", chars "2 sec", chars "1024 MB"⟩]⟩
      (chars "b") =
    ContestInfo.problem
      ⟨[⟨chars "B", chars "Name", chars "/url", chars "2 sec", chars "1024 MB"⟩]⟩
      (chars "B") ∧
    ContestInfo.problem
      ⟨[⟨chars "B", chars "Name", chars "/url", chars "2 sec", chars "1024 MB"⟩]⟩
      (chars "B") =
    some ⟨chars "B", chars "Name", chars "/url", chars "2 sec", chars "1024 MB"⟩ :=
  ⟨problem_case_insensitive
    ⟨[⟨chars "B", chars "Name", chars "/url", chars "2 sec", chars "1024 MB"⟩]⟩
    (chars "b") (chars "B") (by decide), by decide⟩

/-- Claim C10: the task scan of `submit` unwraps each examined label's first
token, so an all-whitespace option label reached before any match makes
`submit` abort instead of reporting ProblemNotFound, while the language scan
defaults a missing first token to the empty string and simply skips such an
option. -/
theorem submit_label_asymmetry (pid src : Chars) (pre post rest : List SelOption)
    (o : SelOption) (langs : Chars → List SelOption) (csrf : CsrfView)
    (hpre : ∀ o' ∈ pre, ∃ tok : Chars, firstToken? o'.label = some tok ∧
      startsWithChars (toLowerChars tok) (toLowerChars pid) = false)
    (ho : firstToken? o.label = none) :
    submit pid src ⟨pre ++ o :: post, langs, csrf⟩ = none ∧
    resolveLang pid (o :: rest) = resolveLang pid rest := by
  constructor
  · show (resolveTask pid (pre ++ o :: post)).bind _ = none
    rw [resolveTask_abort pid pre post o hpre ho]
    rfl
  · rw [resolveLang, ho]
    rfl

/-- Witness for C10: a single all-whitespace task option aborts the submit,
and the same option is skipped by the language scan. -/
theorem submit_label_asymmetry_witness :
    submit (chars "a") (chars "s")
      ⟨[] ++ (⟨chars " ", none⟩ : SelOption) :: [], fun _ => [], none⟩ = none ∧
    resolveLang (chars "a") [⟨chars " ", none⟩] = resolveLang (chars "a") [] :=
  submit_label_asymmetry (chars "a") (chars "s") [] [] [] ⟨chars " ", none⟩
    (fun _ => []) none (by intro o' ho'; cases ho') (by decide)

end AtCoder
